import Mathlib

/-!
Verification of the state-synchronization core of a small multiplayer game:
an authoritative server-side match state (src/server/src/game.py) and a
client-side per-tick report/reconcile loop (src/client/scripts/game.py).

Machine reals are modelled as rationals.  Python truthiness of optional
strings (None and the empty string are falsy) and of optional tuples
(None and the empty tuple are falsy) is modelled explicitly.
-/

/-- Truthiness of a Python value that is either None or a string:
None and the empty string are falsy, every other string is truthy. -/
def pyTruthyStr (o : Option String) : Bool :=
  match o with
  | none => false
  | some s => !s.isEmpty

/-- Modelled from the spec: Vector2 (common/vec2.py, not under src/) is a
minimal 2D vector value type with two scalar components, construction from
a pair, and Euclidean distance.  Coordinates are rationals. -/
structure Vec2 where
  x : ℚ
  y : ℚ
deriving DecidableEq, Repr

namespace Vec2

/-- Modelled from the spec: construction from a coordinate pair
(a well-formed position list has exactly two components). -/
def from_list (l : List ℚ) : Vec2 :=
  ⟨l.headD 0, (l.drop 1).headD 0⟩

/-- Modelled from the spec: squared Euclidean distance.  A comparison
dist v w <= r of the source is rendered as dist2 v w <= r^2, which is
equivalent for a nonnegative threshold r. -/
def dist2 (v w : Vec2) : ℚ :=
  (v.x - w.x) ^ 2 + (v.y - w.y) ^ 2

end Vec2

namespace Server

/-- A joined player of the authoritative match: a username and the last
reported status tuple.  A status field is a list of rationals (a position
is a coordinate pair, a scalar extra field a singleton). -/
structure Player where
  username : String
  status : List (List ℚ)
deriving DecidableEq, Repr

/-- Authoritative match state, from class Game of src/server/src/game.py. -/
structure Game where
  host : String
  nb_players : Nat
  mission_end_pos : List ℚ
  players : List Player
  end_point : Vec2
  winner : Option String
deriving DecidableEq, Repr

namespace Game

/-- The constructor of the server Game: empty roster, goal point built
from the mission end position, no winner. -/
def init (host : String) (nb_players : Nat) (mission_end_pos : List ℚ) : Game :=
  { host := host
    nb_players := nb_players
    mission_end_pos := mission_end_pos
    players := []
    end_point := Vec2.from_list mission_end_pos
    winner := none }

/-- The loop body of Game.update_winner: scan the players in roster order;
for the first player whose status tuple has exactly 3 fields and whose
position (field 0 of the status) is within distance 10 of the goal,
return that username and stop; otherwise keep scanning. -/
def findWin : List Player → Vec2 → Option String
  | [], _ => none
  | p :: rest, goal =>
    if p.status.length = 3 then
      if Vec2.dist2 (Vec2.from_list (p.status.headD [])) goal ≤ 100 then
        some p.username
      else
        findWin rest goal
    else
      findWin rest goal

/-- Game.update_winner of src/server/src/game.py: if self.winner is falsy
(None or the empty string), scan the roster and set winner to the first
player with a 3-field status within distance 10 of end_point; otherwise
do nothing. -/
def update_winner (g : Game) : Game :=
  if pyTruthyStr g.winner then g
  else
    match findWin g.players g.end_point with
    | some u => { g with winner := some u }
    | none => g

end Game

end Server

namespace Server

/-- The condition under which Game.update_winner of the server declares a
player the winner: the status tuple has exactly 3 fields and the position
in its first field is within distance 10 of the goal. -/
def winsAt (goal : Vec2) (p : Player) : Prop :=
  p.status.length = 3 ∧
    Vec2.dist2 (Vec2.from_list (p.status.headD [])) goal ≤ 100

instance (goal : Vec2) (p : Player) : Decidable (winsAt goal p) := by
  unfold winsAt
  infer_instance

namespace Game

theorem findWin_isSome_iff (l : List Player) (goal : Vec2) :
    (findWin l goal).isSome ↔ ∃ p ∈ l, winsAt goal p := by
  induction l with
  | nil => simp [findWin]
  | cons p rest ih =>
    simp only [findWin]
    by_cases h3 : p.status.length = 3
    · by_cases hd : Vec2.dist2 (Vec2.from_list (p.status.headD [])) goal ≤ 100
      · rw [if_pos h3, if_pos hd]
        exact iff_of_true rfl ⟨p, List.mem_cons_self p rest, h3, hd⟩
      · rw [if_pos h3, if_neg hd, ih]
        constructor
        · rintro ⟨r, hr, hw⟩
          exact ⟨r, List.mem_cons_of_mem p hr, hw⟩
        · rintro ⟨r, hr, hw⟩
          rcases List.mem_cons.mp hr with h | h
          · exact absurd (h ▸ hw).2 hd
          · exact ⟨r, h, hw⟩
    · rw [if_neg h3, ih]
      constructor
      · rintro ⟨r, hr, hw⟩
        exact ⟨r, List.mem_cons_of_mem p hr, hw⟩
      · rintro ⟨r, hr, hw⟩
        rcases List.mem_cons.mp hr with h | h
        · exact absurd (h ▸ hw).1 h3
        · exact ⟨r, h, hw⟩

theorem findWin_mem (l : List Player) (goal : Vec2) (u : String)
    (h : findWin l goal = some u) : ∃ p ∈ l, p.username = u := by
  induction l with
  | nil => simp [findWin] at h
  | cons p rest ih =>
    simp only [findWin] at h
    by_cases h3 : p.status.length = 3
    · by_cases hd : Vec2.dist2 (Vec2.from_list (p.status.headD [])) goal ≤ 100
      · rw [if_pos h3, if_pos hd] at h
        exact ⟨p, List.mem_cons_self p rest, Option.some.inj h⟩
      · rw [if_pos h3, if_neg hd] at h
        rcases ih h with ⟨r, hr, hru⟩
        exact ⟨r, List.mem_cons_of_mem p hr, hru⟩
    · rw [if_neg h3] at h
      rcases ih h with ⟨r, hr, hru⟩
      exact ⟨r, List.mem_cons_of_mem p hr, hru⟩

theorem findWin_first (l₁ : List Player) (p : Player) (l₂ : List Player) (goal : Vec2)
    (hbefore : ∀ r ∈ l₁, ¬ winsAt goal r) (hp : winsAt goal p) :
    findWin (l₁ ++ p :: l₂) goal = some p.username := by
  induction l₁ with
  | nil =>
    simp only [List.nil_append, findWin]
    rw [if_pos hp.1, if_pos hp.2]
  | cons r rest ih =>
    have hr := hbefore r (List.mem_cons_self r rest)
    simp only [List.cons_append, findWin]
    by_cases h3 : r.status.length = 3
    · rw [if_pos h3, if_neg fun hd => hr ⟨h3, hd⟩]
      exact ih fun s hs => hbefore s (List.mem_cons_of_mem r hs)
    · rw [if_neg h3]
      exact ih fun s hs => hbefore s (List.mem_cons_of_mem r hs)

end Game

/-- A one-player match used to check the eligibility characterization:
the single player has a 3-field status at distance exactly 10 from the
goal. -/
def eligGame : Game :=
  ⟨"h", 1, [0, 0], [⟨"a", [[6, 8], [0], [0]]⟩], ⟨0, 0⟩, none⟩

/-- A one-player match whose single player has a four-field status tuple
and sits exactly on the goal. -/
def fourFieldGame : Game :=
  ⟨"h", 1, [0, 0], [⟨"b", [[0, 0], [1], [2], [3]]⟩], ⟨0, 0⟩, none⟩

/-- Claim C1 (amended: eligibility requires exactly 3 status fields, not
at least 3): with no winner set, update_winner produces a winner exactly
when some roster player has a status tuple of exactly 3 fields whose
first-field position is within distance 10 of the goal. -/
theorem Game.update_winner_eligible_iff_exactly_three (g : Game) (h : g.winner = none) :
    g.update_winner.winner ≠ none ↔ ∃ p ∈ g.players, winsAt g.end_point p := by
  rw [← findWin_isSome_iff]
  unfold update_winner
  have hf : pyTruthyStr g.winner = false := by simp [h, pyTruthyStr]
  rw [hf]
  simp only [Bool.false_eq_true, if_false]
  cases hw : findWin g.players g.end_point <;> simp [hw, h]

/-- Witness for C1: the threshold-boundary player is declared winner. -/
theorem Game.update_winner_eligible_iff_exactly_three_witness :
    eligGame.update_winner.winner ≠ none :=
  (Game.update_winner_eligible_iff_exactly_three eligGame rfl).mpr
    ⟨⟨"a", [[6, 8], [0], [0]]⟩, by simp [eligGame],
      by constructor
         · simp
         · norm_num [Vec2.dist2, Vec2.from_list, eligGame]⟩

/-- Counterexample to C1 as stated: a player whose status tuple has four
fields (hence at least 3) and sits exactly on the goal is never declared
winner, because the source tests len(status) == 3, not >= 3. -/
theorem Game.update_winner_four_fields_not_eligible :
    (∃ p ∈ fourFieldGame.players, 3 ≤ p.status.length ∧
        Vec2.dist2 (Vec2.from_list (p.status.headD [])) fourFieldGame.end_point ≤ 100) ∧
      fourFieldGame.winner = none ∧
      fourFieldGame.update_winner.winner = none := by
  refine ⟨⟨⟨"b", [[0, 0], [1], [2], [3]]⟩, by simp [fourFieldGame], by simp,
    by norm_num [Vec2.dist2, Vec2.from_list, fourFieldGame]⟩, rfl, ?_⟩
  norm_num [fourFieldGame, Game.update_winner, Game.findWin, pyTruthyStr]

/-- The two-player match of the join-order scenario: both players are
within the threshold, the later-joined one strictly closer to the goal. -/
def joinOrderGame : Game :=
  ⟨"h", 2, [100, 100],
    [⟨"p1", [[95, 96], [0], [0]]⟩, ⟨"p2", [[100, 100], [0], [0]]⟩],
    ⟨100, 100⟩, none⟩

/-- Claim C2 (confirmed): with no winner set, if p is the first player in
roster order satisfying the win condition (all earlier players fail it)
then update_winner selects p, even when a later player q, possibly
strictly closer, also satisfies it. -/
theorem Game.update_winner_join_order (g : Game) (l₁ l₂ : List Player) (p q : Player)
    (hw : pyTruthyStr g.winner = false)
    (hsplit : g.players = l₁ ++ p :: l₂)
    (hbefore : ∀ r ∈ l₁, ¬ winsAt g.end_point r)
    (hp : winsAt g.end_point p)
    (hq : q ∈ l₂)
    (hqwins : winsAt g.end_point q)
    (hne : q.username ≠ p.username) :
    g.update_winner.winner = some p.username ∧
      g.update_winner.winner ≠ some q.username := by
  have hfw : Game.findWin g.players g.end_point = some p.username := by
    rw [hsplit]
    exact Game.findWin_first l₁ p l₂ g.end_point hbefore hp
  have hmain : g.update_winner.winner = some p.username := by
    unfold update_winner
    rw [hw]
    simp [hfw]
  refine ⟨hmain, ?_⟩
  rw [hmain]
  intro hcontra
  exact hne (Option.some.inj hcontra).symm

/-- Witness for C2: in joinOrderGame, p1 (joined first, distance about
6.4) wins and p2 (joined later, distance 0) does not. -/
theorem Game.update_winner_join_order_witness :
    joinOrderGame.update_winner.winner = some "p1" ∧
      joinOrderGame.update_winner.winner ≠ some "p2" :=
  Game.update_winner_join_order joinOrderGame []
    [⟨"p2", [[100, 100], [0], [0]]⟩]
    ⟨"p1", [[95, 96], [0], [0]]⟩ ⟨"p2", [[100, 100], [0], [0]]⟩
    (by simp [joinOrderGame, pyTruthyStr])
    (by simp [joinOrderGame])
    (by simp)
    (by constructor
        · simp
        · norm_num [Vec2.dist2, Vec2.from_list, joinOrderGame])
    (by simp)
    (by constructor
        · simp
        · norm_num [Vec2.dist2, Vec2.from_list, joinOrderGame])
    (by simp)

/-- A match whose winner field holds the empty string (set, but falsy in
Python), with a player sitting near the goal. -/
def emptyWinnerGame : Game :=
  ⟨"h", 1, [0, 0], [⟨"a", [[3, 4], [0], [0]]⟩], ⟨0, 0⟩, some ""⟩

/-- Claim C3 (amended: the guard is Python truthiness, so the no-op is
guaranteed only when the stored winner is a nonempty username): if the
winner field holds a truthy (nonempty) username, update_winner returns
the state unchanged, in particular winner is untouched. -/
theorem Game.update_winner_truthy_noop (g : Game) (h : pyTruthyStr g.winner = true) :
    g.update_winner = g := by
  unfold update_winner
  rw [h]
  simp

/-- Witness for C3: with winner alice already set, update_winner is the
identity. -/
theorem Game.update_winner_truthy_noop_witness :
    Game.update_winner ⟨"h", 1, [0, 0], [⟨"a", [[0, 0], [0], [0]]⟩], ⟨0, 0⟩, some "alice"⟩ =
      ⟨"h", 1, [0, 0], [⟨"a", [[0, 0], [0], [0]]⟩], ⟨0, 0⟩, some "alice"⟩ :=
  Game.update_winner_truthy_noop _ (by decide)

/-- Counterexample to C3 as stated: a state whose winner field is set to
the empty string (set, i.e. not None) is reassigned by update_winner,
because the source guard is the falsy test `not self.winner`. -/
theorem Game.update_winner_empty_winner_reassigned :
    emptyWinnerGame.winner ≠ none ∧
      emptyWinnerGame.update_winner.winner ≠ emptyWinnerGame.winner := by
  constructor
  · simp [emptyWinnerGame]
  · norm_num [emptyWinnerGame, Game.update_winner, Game.findWin, pyTruthyStr,
      Vec2.dist2, Vec2.from_list]
    decide

/-- A second match with an empty-string winner, used for the frame-effect
counterexample. -/
def emptyWinnerGameB : Game :=
  ⟨"k", 1, [0, 0], [⟨"bob", [[0, 1], [0], [0]]⟩], ⟨0, 0⟩, some ""⟩

/-- Claim C9 (amended: winner can also change when it currently holds a
falsy value such as the empty string, not only from unset): update_winner
leaves host, capacity, mission end position, roster and goal unchanged,
and either leaves winner unchanged or, when winner was falsy, sets it to
the username of some roster player. -/
theorem Game.update_winner_frame (g : Game) :
    g.update_winner.players = g.players ∧
      g.update_winner.end_point = g.end_point ∧
      g.update_winner.host = g.host ∧
      g.update_winner.nb_players = g.nb_players ∧
      g.update_winner.mission_end_pos = g.mission_end_pos ∧
      (g.update_winner.winner = g.winner ∨
        (pyTruthyStr g.winner = false ∧
          ∃ p ∈ g.players, g.update_winner.winner = some p.username)) := by
  unfold update_winner
  by_cases h : pyTruthyStr g.winner
  · simp [h]
  · rw [Bool.not_eq_true] at h
    rw [h]
    simp only [Bool.false_eq_true, if_false]
    cases hfw : Game.findWin g.players g.end_point with
    | none => simp
    | some u =>
      rcases Game.findWin_mem _ _ _ hfw with ⟨p, hpmem, hpu⟩
      refine ⟨rfl, rfl, rfl, rfl, rfl, Or.inr ⟨?_, p, hpmem, ?_⟩⟩
      · trivial
      · simp [hpu]

/-- Counterexample to C9 as stated: with winner holding the empty string
(not unset) and bob near the goal, update_winner still changes winner, so
a change can start from a set (but falsy) value. -/
theorem Game.update_winner_change_not_from_unset :
    emptyWinnerGameB.winner ≠ none ∧
      emptyWinnerGameB.update_winner.winner ≠ emptyWinnerGameB.winner := by
  constructor
  · simp [emptyWinnerGameB]
  · norm_num [emptyWinnerGameB, Game.update_winner, Game.findWin, pyTruthyStr,
      Vec2.dist2, Vec2.from_list]
    decide

end Server


namespace Client

/-- Truthiness of a Python value that is either None or a status tuple:
None and the empty tuple are falsy, every nonempty tuple is truthy. -/
def pyTruthyVal (o : Option (List (List ℚ))) : Bool :=
  match o with
  | none => false
  | some t => !t.isEmpty

/-- Lifecycle flag of a remotely observed participant. -/
inductive Lifecycle where
  | Active
  | Disappeared
deriving DecidableEq, Repr

/-- Modelled from the spec: a remote participant sprite (class Ship of
client/scripts/ship.py, not under src/): a cached ParticipantState, i.e.
the last known status tuple plus the lifecycle flag. -/
structure Ship where
  username : String
  status : List (List ℚ)
  lifecycle : Lifecycle
deriving DecidableEq, Repr

namespace Ship

/-- Modelled from the spec: Ship.set_status overwrites the cached
ParticipantState from the received status tuple. -/
def set_status (s : Ship) (t : List (List ℚ)) : Ship :=
  { s with status := t, lifecycle := Lifecycle.Active }

/-- Modelled from the spec: Ship.disappear marks the participant
Disappeared. -/
def disappear (s : Ship) : Ship :=
  { s with lifecycle := Lifecycle.Disappeared }

end Ship

/-- The payload of a well-formed data response: statuses is a mapping
username to status tuple (an association list standing for the Python
dict), winner an optional username.  An absent statuses key is conflated
with an empty mapping. -/
structure Data where
  statuses : List (String × List (List ℚ))
  winner : Option String
deriving DecidableEq, Repr

/-- The result of one transport round trip of client.report: either an
exception (timeout, connection failure) or a response dict with optional
error and data fields.  An empty data dict, being falsy like an absent
one, is conflated with none. -/
inductive TransportResult where
  | fault
  | response (error : Option String) (data : Option Data)
deriving DecidableEq, Repr

/-- The outcome of one call to Game.update_server: noSend when the
throttle skipped the exchange (returns None), exited when a transport
fault was caught and self.exit() ran (returns None), raisedError and
raisedUnknown when a BaseException was raised past the caller,
ok when a data payload was returned. -/
inductive ServerOutcome where
  | noSend
  | exited
  | raisedError (msg : String)
  | raisedUnknown
  | ok (d : Data)
deriving DecidableEq, Repr

/-- Whether this outcome of Game.update_server involved an outbound
report call on the transport (everything except the throttled skip). -/
def ServerOutcome.attempted : ServerOutcome → Bool
  | .noSend => false
  | _ => true

/-- Whether this outcome of Game.update_server is fatal to the session:
the caught transport fault (session exited) and both raised exceptions. -/
def ServerOutcome.fatal : ServerOutcome → Bool
  | .noSend => false
  | .ok _ => false
  | _ => true

/-- Modelled from the spec: the winner display handler (class WinHandler
of client/scripts/win_handler.py, not under src/) holds the optional
displayed winner; set_winner stores a username, has_winner reports
whether one is stored. -/
structure WinHandler where
  winner : Option String
deriving DecidableEq, Repr

/-- Modelled from the spec: store a displayed winner username. -/
def WinHandler.set_winner (w : WinHandler) (u : String) : WinHandler :=
  ⟨some u⟩

/-- Modelled from the spec: whether a displayed winner is stored. -/
def WinHandler.has_winner (w : WinHandler) : Bool :=
  w.winner.isSome

/-- The client session state (class Game of src/client/scripts/game.py),
restricted to the synchronization core: rendering and physics fields are
out of scope.  server_timer is the Chrono reading (elapsed time since the
last reset) at the start of the tick; pos is the player ship position;
end_pos the goal of the map; exited records that self.exit() ran. -/
structure Game where
  username : String
  offline : Bool
  server_timer : ℚ
  other_ships : List (String × Ship)
  pos : Vec2
  end_pos : Vec2
  win_handler : WinHandler
  exited : Bool
deriving DecidableEq, Repr

/-- Modelled from the spec: Map.is_winner (client/scripts/map_gen.py,
not under src/) tests whether a position is within the win threshold
(10 distance units) of the goal. -/
def Map.is_winner (end_pos p : Vec2) : Bool :=
  Vec2.dist2 p end_pos ≤ 100

namespace Game

/-- Game.update_server of src/client/scripts/game.py.  Reads the timer;
if the reading is strictly above 0.025 it resets the timer and performs
the report round trip: a transport exception is caught and ends the
session via self.exit(), a response with a truthy error field raises, a
response with a truthy data field yields the payload, anything else
raises an unknown error.  Otherwise no network I/O happens. -/
def update_server (g : Game) (tr : TransportResult) : Game × ServerOutcome :=
  if 1 / 40 < g.server_timer then
    match tr with
    | .fault => ({ g with server_timer := 0, exited := true }, .exited)
    | .response err data =>
      if pyTruthyStr err then
        ({ g with server_timer := 0 }, .raisedError (err.getD ""))
      else
        match data with
        | some d => ({ g with server_timer := 0 }, .ok d)
        | none => ({ g with server_timer := 0 }, .raisedUnknown)
  else
    (g, .noSend)

/-- Game.update_positions of src/client/scripts/game.py: for each cached
remote ship, in cache order, if the received statuses dict holds a truthy
value for that username overwrite the ship status from it, else mark the
ship disappeared. -/
def update_positions (g : Game) (statuses : List (String × List (List ℚ))) : Game :=
  { g with
    other_ships :=
      g.other_ships.map fun ps =>
        if pyTruthyVal (statuses.lookup ps.1) then
          (ps.1, ps.2.set_status ((statuses.lookup ps.1).getD []))
        else
          (ps.1, ps.2.disappear) }

/-- Game.update_winner of src/client/scripts/game.py: if a report was
received this tick and it carries a truthy winner field, display that
winner; otherwise, if the local player position is a winning position on
the map, display the local username. -/
def update_winner (g : Game) (report : Option Data) : Game :=
  if report.isSome && pyTruthyStr (report.bind Data.winner) then
    { g with win_handler := g.win_handler.set_winner ((report.bind Data.winner).getD "") }
  else if Map.is_winner g.end_pos g.pos then
    { g with win_handler := g.win_handler.set_winner g.username }
  else
    g

end Game



/-- The visible result of one tick of Game.update: either the tick ran to
completion with the new session state, or a raised exception escaped the
tick (the state at the raise point is kept for inspection).  sent records
whether an outbound report call happened during the tick. -/
inductive TickResult where
  | normal (g : Game) (sent : Bool)
  | raised (g : Game) (sent : Bool)
deriving DecidableEq, Repr

namespace Game

/-- Game.update of src/client/scripts/game.py, one simulation tick.
Physics, input and rendering are out of scope: the collaborator-computed
new player position arrives as newPos, the ENTER key state as enter, and
the transport round trip outcome (used only if a report is actually sent)
as tr.  While no winner is displayed: apply the local update; unless
offline, run update_server, reconcile positions when a data payload was
returned, and let a raised exception escape the tick; finally run
update_winner with the received payload (None when offline, throttled or
after a caught transport fault).  Once a winner is displayed the tick
only watches for the ENTER key to exit. -/
def update (g : Game) (newPos : Vec2) (enter : Bool) (tr : TransportResult) : TickResult :=
  if !g.win_handler.has_winner then
    let g1 := { g with pos := newPos }
    if !g1.offline then
      match g1.update_server tr with
      | (g2, .raisedError m) => .raised g2 true
      | (g2, .raisedUnknown) => .raised g2 true
      | (g2, .ok d) => .normal ((g2.update_positions d.statuses).update_winner (some d)) true
      | (g2, .exited) => .normal (g2.update_winner none) true
      | (g2, .noSend) => .normal (g2.update_winner none) false
    else
      .normal (g1.update_winner none) false
  else
    if enter then
      .normal { g with exited := true } false
    else
      .normal g false

end Game

end Client

namespace Client

/-- The session state carried by a tick result. -/
def TickResult.state : TickResult → Game
  | .normal g _ => g
  | .raised g _ => g

/-- Whether the tick ended with an exception escaping Game.update. -/
def TickResult.isRaised : TickResult → Bool
  | .normal _ _ => false
  | .raised _ _ => true

/-- The winner field carried inside the data payload of a transport
response, if any. -/
def dataWinner : TransportResult → Option String
  | .response _ (some d) => d.winner
  | _ => none

namespace Game

theorem update_server_no_send (g : Game) (tr : TransportResult)
    (h : ¬ (1 : ℚ) / 40 < g.server_timer) :
    g.update_server tr = (g, ServerOutcome.noSend) := by
  unfold Game.update_server
  rw [if_neg h]

theorem update_server_fault (g : Game) (ht : (1 : ℚ) / 40 < g.server_timer) :
    g.update_server TransportResult.fault =
      ({ g with server_timer := 0, exited := true }, ServerOutcome.exited) := by
  unfold Game.update_server
  rw [if_pos ht]

theorem update_server_response (g : Game) (err : Option String) (data : Option Data)
    (ht : (1 : ℚ) / 40 < g.server_timer) :
    g.update_server (TransportResult.response err data) =
      if pyTruthyStr err then
        ({ g with server_timer := 0 }, ServerOutcome.raisedError (err.getD ""))
      else
        match data with
        | some d => ({ g with server_timer := 0 }, ServerOutcome.ok d)
        | none => ({ g with server_timer := 0 }, ServerOutcome.raisedUnknown) := by
  unfold Game.update_server
  rw [if_pos ht]

theorem update_server_sends (g : Game) (tr : TransportResult)
    (ht : (1 : ℚ) / 40 < g.server_timer) :
    (g.update_server tr).1.server_timer = 0 ∧
      ((g.update_server tr).2).attempted = true := by
  cases tr with
  | fault => rw [update_server_fault g ht]; exact ⟨rfl, rfl⟩
  | response err data =>
    rw [update_server_response g err data ht]
    by_cases he : pyTruthyStr err = true
    · rw [if_pos he]; exact ⟨rfl, rfl⟩
    · rw [if_neg he]
      cases data with
      | some d => exact ⟨rfl, rfl⟩
      | none => exact ⟨rfl, rfl⟩

theorem update_server_ok (g : Game) (tr : TransportResult) (g2 : Game) (d : Data)
    (h : g.update_server tr = (g2, ServerOutcome.ok d)) :
    ∃ err, tr = TransportResult.response err (some d) ∧ pyTruthyStr err = false := by
  by_cases ht : (1 : ℚ) / 40 < g.server_timer
  · cases tr with
    | fault =>
      rw [update_server_fault g ht] at h
      exact absurd (congrArg Prod.snd h) (by simp)
    | response err data =>
      rw [update_server_response g err data ht] at h
      by_cases he : pyTruthyStr err = true
      · rw [if_pos he] at h
        exact absurd (congrArg Prod.snd h) (by simp)
      · rw [if_neg he] at h
        cases data with
        | some d2 =>
          have hd2 : d2 = d := by
            have := congrArg Prod.snd h
            simpa using this
          exact ⟨err, by rw [hd2], by simpa using he⟩
        | none => exact absurd (congrArg Prod.snd h) (by simp)
  · rw [update_server_no_send g tr ht] at h
    exact absurd (congrArg Prod.snd h) (by simp)

theorem update_server_frame (g : Game) (tr : TransportResult) :
    (g.update_server tr).1.username = g.username ∧
      (g.update_server tr).1.pos = g.pos ∧
      (g.update_server tr).1.end_pos = g.end_pos ∧
      (g.update_server tr).1.win_handler = g.win_handler ∧
      (g.update_server tr).1.other_ships = g.other_ships ∧
      (g.update_server tr).1.offline = g.offline := by
  by_cases ht : (1 : ℚ) / 40 < g.server_timer
  · cases tr with
    | fault =>
      rw [update_server_fault g ht]
      exact ⟨rfl, rfl, rfl, rfl, rfl, rfl⟩
    | response err data =>
      rw [update_server_response g err data ht]
      by_cases he : pyTruthyStr err = true
      · rw [if_pos he]; exact ⟨rfl, rfl, rfl, rfl, rfl, rfl⟩
      · rw [if_neg he]
        cases data with
        | some d => exact ⟨rfl, rfl, rfl, rfl, rfl, rfl⟩
        | none => exact ⟨rfl, rfl, rfl, rfl, rfl, rfl⟩
  · rw [update_server_no_send g tr ht]
    exact ⟨rfl, rfl, rfl, rfl, rfl, rfl⟩

theorem update_winner_local (g : Game) (report : Option Data)
    (hfalsy : pyTruthyStr (report.bind Data.winner) = false)
    (hd : Map.is_winner g.end_pos g.pos = true) :
    (g.update_winner report).win_handler = ⟨some g.username⟩ := by
  unfold Game.update_winner
  rw [hfalsy, Bool.and_false]
  rw [if_neg Bool.false_ne_true]
  rw [if_pos hd]
  rfl

theorem update_active (g : Game) (newPos : Vec2) (enter : Bool) (tr : TransportResult)
    (hw : g.win_handler.has_winner = false) :
    g.update newPos enter tr =
      (if !g.offline then
        match ({ g with pos := newPos } : Game).update_server tr with
        | (g2, .raisedError _) => TickResult.raised g2 true
        | (g2, .raisedUnknown) => TickResult.raised g2 true
        | (g2, .ok d) =>
          TickResult.normal ((g2.update_positions d.statuses).update_winner (some d)) true
        | (g2, .exited) => TickResult.normal (g2.update_winner none) true
        | (g2, .noSend) => TickResult.normal (g2.update_winner none) false
      else TickResult.normal (({ g with pos := newPos } : Game).update_winner none) false) := by
  unfold Game.update
  rw [hw]
  rfl

end Game

end Client

namespace Client

/-- A networked session whose timer reads exactly 0.025 at this tick. -/
def boundaryGame : Game :=
  ⟨"u", false, 1 / 40, [], ⟨0, 0⟩, ⟨100, 100⟩, ⟨none⟩, false⟩

/-- A networked session whose timer reads 1 at this tick. -/
def dueGame : Game :=
  ⟨"u2", false, 1, [], ⟨0, 0⟩, ⟨100, 100⟩, ⟨none⟩, false⟩

/-- Claim C4 (amended: the gate is strictly greater than 0.025, so a tick
whose elapsed time equals the interval exactly does not send): an outbound
report call happens exactly when the timer reading strictly exceeds 0.025;
when it does, the timer is reset, so a second tick coming less than the
interval later reads below the interval and sends nothing - two such
ticks yield exactly one report. -/
theorem Game.update_server_throttle (g : Game) (tr tr2 : TransportResult) (d : ℚ)
    (hd : d < 1 / 40) :
    (((g.update_server tr).2).attempted = true ↔ 1 / 40 < g.server_timer) ∧
      (1 / 40 < g.server_timer →
        (g.update_server tr).1.server_timer = 0 ∧
          ((({ (g.update_server tr).1 with server_timer := d }).update_server tr2).2).attempted =
            false) := by
  constructor
  · constructor
    · intro ha
      by_contra hnot
      rw [update_server_no_send g tr hnot] at ha
      simp [ServerOutcome.attempted] at ha
    · intro ht
      exact (update_server_sends g tr ht).2
  · intro ht
    refine ⟨(update_server_sends g tr ht).1, ?_⟩
    rw [update_server_no_send _ tr2 (by simpa using not_lt.mpr (le_of_lt hd))]
    rfl

/-- Witness for C4: with the timer at 1 the report call is made. -/
theorem Game.update_server_throttle_witness :
    ((dueGame.update_server TransportResult.fault).2).attempted = true :=
  (Game.update_server_throttle dueGame TransportResult.fault TransportResult.fault (1 / 80)
      (by norm_num)).1.mpr (by norm_num [dueGame])

/-- Counterexample to C4 as stated: when elapsed time equals the interval
(timer reading exactly 0.025, hence not less than the interval), the code
sends nothing, because the source tests time > 0.025 strictly. -/
theorem Game.update_server_boundary_no_send :
    (1 : ℚ) / 40 ≤ boundaryGame.server_timer ∧
      ((boundaryGame.update_server
          (TransportResult.response none (some ⟨[], none⟩))).2).attempted = false := by
  refine ⟨by norm_num [boundaryGame], ?_⟩
  rw [update_server_no_send _ _ (by norm_num [boundaryGame])]
  rfl

/-- A networked session whose timer reads 1, for the error-path claim. -/
def faultTickGame : Game :=
  ⟨"v", false, 1, [], ⟨0, 0⟩, ⟨100, 100⟩, ⟨none⟩, false⟩

/-- Claim C5 (amended: a truthy error field is fatal with no retry, but
it raises an exception that escapes update_server, while a transport
fault is caught inside it and ends the session via self.exit(); the two
termination paths are distinct): the outcome of an error-field response
is the raised error, fatal, and differs from the fault outcome, which is
the caught exit, also fatal. -/
theorem Game.update_server_error_field_fatal (g : Game) (err : Option String)
    (data : Option Data) (ht : (1 : ℚ) / 40 < g.server_timer)
    (he : pyTruthyStr err = true) :
    (g.update_server (TransportResult.response err data)).2 =
        ServerOutcome.raisedError (err.getD "") ∧
      ((g.update_server (TransportResult.response err data)).2).fatal = true ∧
      (g.update_server TransportResult.fault).2 = ServerOutcome.exited ∧
      ((g.update_server TransportResult.fault).2).fatal = true ∧
      (g.update_server (TransportResult.response err data)).2 ≠
        (g.update_server TransportResult.fault).2 := by
  have h1 : (g.update_server (TransportResult.response err data)).2 =
      ServerOutcome.raisedError (err.getD "") := by
    rw [update_server_response g err data ht, if_pos he]
  have h2 : (g.update_server TransportResult.fault).2 = ServerOutcome.exited := by
    rw [update_server_fault g ht]
  refine ⟨h1, by rw [h1]; rfl, h2, by rw [h2]; rfl, ?_⟩
  rw [h1, h2]
  simp

/-- Witness for C5: concrete error response versus concrete fault. -/
theorem Game.update_server_error_field_fatal_witness :
    (faultTickGame.update_server (TransportResult.response (some "boom") none)).2 =
        ServerOutcome.raisedError "boom" ∧
      ((faultTickGame.update_server (TransportResult.response (some "boom") none)).2).fatal =
        true ∧
      (faultTickGame.update_server TransportResult.fault).2 = ServerOutcome.exited ∧
      ((faultTickGame.update_server TransportResult.fault).2).fatal = true ∧
      (faultTickGame.update_server (TransportResult.response (some "boom") none)).2 ≠
        (faultTickGame.update_server TransportResult.fault).2 :=
  Game.update_server_error_field_fatal faultTickGame (some "boom") none
    (by norm_num [faultTickGame]) (by decide)

end Client

namespace Client

/-- A session caching one remote participant A with a known position. -/
def cacheGame : Game :=
  ⟨"w", false, 0, [("A", ⟨"A", [[1, 2]], Lifecycle.Active⟩)], ⟨0, 0⟩, ⟨100, 100⟩, ⟨none⟩,
    false⟩

/-- A session caching one remote participant B. -/
def cacheGameB : Game :=
  ⟨"w2", false, 0, [("B", ⟨"B", [[5]], Lifecycle.Active⟩)], ⟨0, 0⟩, ⟨100, 100⟩, ⟨none⟩,
    false⟩

/-- A session caching one remote participant C. -/
def cacheGameC : Game :=
  ⟨"w3", false, 0, [("C", ⟨"C", [[9, 9], [1], [2]], Lifecycle.Active⟩)], ⟨0, 0⟩,
    ⟨100, 100⟩, ⟨none⟩, false⟩

/-- Claim C6 (amended: a cached participant is overwritten when the
received statuses hold a truthy, i.e. nonempty, tuple for it; it is
marked Disappeared when its username is absent - and also, per C10, when
the held tuple is empty): reconciliation maps each cached entry in place,
so debug usernames outside the cache are never touched (the key list is
unchanged), a present nonempty tuple overwrites the cached state, and an
absent username marks the participant Disappeared. -/
theorem Game.update_positions_reconcile (g : Game)
    (statuses : List (String × List (List ℚ))) (p : String) (s : Ship)
    (hmem : (p, s) ∈ g.other_ships) :
    (g.update_positions statuses).other_ships.map Prod.fst =
        g.other_ships.map Prod.fst ∧
      (∀ t, statuses.lookup p = some t → t ≠ [] →
        (p, s.set_status t) ∈ (g.update_positions statuses).other_ships) ∧
      (statuses.lookup p = none →
        (p, s.disappear) ∈ (g.update_positions statuses).other_ships) := by
  refine ⟨?_, ?_, ?_⟩
  · unfold Game.update_positions
    rw [List.map_map]
    refine List.map_congr_left ?_
    intro ps _
    by_cases hv : pyTruthyVal (statuses.lookup ps.1) = true
    · rw [Function.comp_apply, if_pos hv]
    · rw [Function.comp_apply, if_neg hv]
  · intro t hl hne
    have hv : pyTruthyVal (some t) = true := by
      simpa [pyTruthyVal] using hne
    unfold Game.update_positions
    simp only [List.mem_map]
    exact ⟨(p, s), hmem, by simp [hl, hv]⟩
  · intro hl
    have hv : pyTruthyVal (statuses.lookup p) = false := by rw [hl]; rfl
    unfold Game.update_positions
    simp only [List.mem_map]
    exact ⟨(p, s), hmem, by simp [hv]⟩

/-- Witness for C6: B's cached state is overwritten from a nonempty
received tuple. -/
theorem Game.update_positions_reconcile_witness :
    ("B", Ship.set_status ⟨"B", [[5]], Lifecycle.Active⟩ [[7, 8], [1], [2]]) ∈
      (cacheGameB.update_positions [("B", [[7, 8], [1], [2]])]).other_ships :=
  (Game.update_positions_reconcile cacheGameB [("B", [[7, 8], [1], [2]])] "B"
      ⟨"B", [[5]], Lifecycle.Active⟩ (by simp [cacheGameB])).2.1
    [[7, 8], [1], [2]] rfl (by simp)

/-- Counterexample to C6 as stated: participant A is present as a key of
the received statuses, but mapped to the empty (falsy) tuple; the code
marks A Disappeared instead of overwriting its state with the received
tuple, because presence is tested with the truthiness of
report.get(player). -/
theorem Game.update_positions_present_but_empty_not_overwritten :
    ([("A", ([] : List (List ℚ)))]).lookup "A" = some [] ∧
      (cacheGame.update_positions [("A", [])]).other_ships =
        [("A", ⟨"A", [[1, 2]], Lifecycle.Disappeared⟩)] ∧
      (⟨"A", [[1, 2]], Lifecycle.Disappeared⟩ : Ship) ≠
        Ship.set_status ⟨"A", [[1, 2]], Lifecycle.Active⟩ [] := by
  refine ⟨rfl, rfl, ?_⟩
  simp [Ship.set_status]

/-- Claim C10 (confirmed): a cached remote participant whose username is
present in the received statuses but mapped to a falsy value (the empty
tuple) is marked Disappeared, keeping its old status fields, rather than
being overwritten - the lookup result is tested for truthiness, not key
membership. -/
theorem Game.update_positions_falsy_value_disappears (g : Game)
    (statuses : List (String × List (List ℚ))) (p : String) (s : Ship)
    (hmem : (p, s) ∈ g.other_ships) (hl : statuses.lookup p = some []) :
    (p, s.disappear) ∈ (g.update_positions statuses).other_ships ∧
      (s.disappear).lifecycle = Lifecycle.Disappeared ∧
      (s.disappear).status = s.status := by
  refine ⟨?_, rfl, rfl⟩
  have hv : pyTruthyVal (statuses.lookup p) = false := by rw [hl]; rfl
  unfold Game.update_positions
  simp only [List.mem_map]
  exact ⟨(p, s), hmem, by simp [hv]⟩

/-- Witness for C10: C, reported with an empty tuple, is marked
Disappeared with its old status kept. -/
theorem Game.update_positions_falsy_value_disappears_witness :
    ("C", Ship.disappear ⟨"C", [[9, 9], [1], [2]], Lifecycle.Active⟩) ∈
        (cacheGameC.update_positions [("C", [])]).other_ships ∧
      (Ship.disappear ⟨"C", [[9, 9], [1], [2]], Lifecycle.Active⟩).lifecycle =
        Lifecycle.Disappeared ∧
      (Ship.disappear ⟨"C", [[9, 9], [1], [2]], Lifecycle.Active⟩).status =
        [[9, 9], [1], [2]] :=
  Game.update_positions_falsy_value_disappears cacheGameC [("C", [])] "C"
    ⟨"C", [[9, 9], [1], [2]], Lifecycle.Active⟩ (by simp [cacheGameC]) rfl

end Client

namespace Client

/-- A networked session with the timer due and the goal at the origin. -/
def raiseTickGame : Game :=
  ⟨"me", false, 1, [], ⟨50, 50⟩, ⟨0, 0⟩, ⟨none⟩, false⟩

/-- An offline session whose goal sits at distance 5 from the origin. -/
def offlineGame : Game :=
  ⟨"solo", true, 0, [], ⟨9, 9⟩, ⟨3, 4⟩, ⟨none⟩, false⟩

/-- A session that already displays a winner. -/
def idleGame : Game :=
  ⟨"z", false, 1, [("A", ⟨"A", [], Lifecycle.Active⟩)], ⟨0, 0⟩, ⟨100, 100⟩,
    ⟨some "champ"⟩, false⟩

/-- Claim C7 (amended: restricted to Active ticks that complete, i.e. are
not aborted by a raised protocol or unknown error, and whose transport
response carries no truthy winner): on such a tick — offline ticks,
throttled ticks, caught-fault ticks and data ticks without a server
winner — if the new local position is within the win threshold of the
goal, the displayed winner becomes the local username and the session is
Idle afterwards. -/
theorem Game.update_local_win_fallback (g : Game) (newPos : Vec2) (enter : Bool)
    (tr : TransportResult)
    (hw : g.win_handler.has_winner = false)
    (hnoraise : (g.update newPos enter tr).isRaised = false)
    (hnowin : pyTruthyStr (dataWinner tr) = false)
    (hpos : Map.is_winner g.end_pos newPos = true) :
    (g.update newPos enter tr).state.win_handler.winner = some g.username ∧
      (g.update newPos enter tr).state.win_handler.has_winner = true := by
  rw [update_active g newPos enter tr hw] at hnoraise ⊢
  by_cases ho : g.offline = true
  · rw [if_neg (show ¬ ((!g.offline) = true) by rw [ho]; simp)]
    have hwh := update_winner_local ({ g with pos := newPos } : Game) none rfl hpos
    show ((({ g with pos := newPos } : Game).update_winner none).win_handler.winner =
        some g.username) ∧
      ((({ g with pos := newPos } : Game).update_winner none).win_handler.has_winner = true)
    rw [hwh]
    exact ⟨rfl, rfl⟩
  · rw [Bool.not_eq_true] at ho
    rw [if_pos (show (!g.offline) = true by rw [ho]; rfl)] at hnoraise ⊢
    rcases hres : ({ g with pos := newPos } : Game).update_server tr with ⟨g2, out⟩
    rw [hres] at hnoraise
    have hfr := update_server_frame ({ g with pos := newPos } : Game) tr
    rw [hres] at hfr
    have hend : g2.end_pos = ({ g with pos := newPos } : Game).end_pos := hfr.2.2.1
    have hps : g2.pos = ({ g with pos := newPos } : Game).pos := hfr.2.1
    have hu : g2.username = g.username := hfr.1
    have hd2 : Map.is_winner g2.end_pos g2.pos = true := by
      rw [hend, hps]
      exact hpos
    cases out with
    | raisedError m => simp [TickResult.isRaised] at hnoraise
    | raisedUnknown => simp [TickResult.isRaised] at hnoraise
    | noSend =>
      have hwh := update_winner_local g2 none rfl hd2
      show ((g2.update_winner none).win_handler.winner = some g.username) ∧
        ((g2.update_winner none).win_handler.has_winner = true)
      rw [hwh, hu]
      exact ⟨rfl, rfl⟩
    | exited =>
      have hwh := update_winner_local g2 none rfl hd2
      show ((g2.update_winner none).win_handler.winner = some g.username) ∧
        ((g2.update_winner none).win_handler.has_winner = true)
      rw [hwh, hu]
      exact ⟨rfl, rfl⟩
    | ok d =>
      rcases update_server_ok _ tr g2 d hres with ⟨err, htr, herrfalse⟩
      have hdw : pyTruthyStr d.winner = false := by
        rw [htr] at hnowin
        simpa [dataWinner] using hnowin
      have hd3 : Map.is_winner (g2.update_positions d.statuses).end_pos
          (g2.update_positions d.statuses).pos = true := hd2
      have hwh := update_winner_local (g2.update_positions d.statuses) (some d) hdw hd3
      show (((g2.update_positions d.statuses).update_winner (some d)).win_handler.winner =
          some g.username) ∧
        (((g2.update_positions d.statuses).update_winner (some d)).win_handler.has_winner =
          true)
      rw [hwh]
      have hu2 : (g2.update_positions d.statuses).username = g.username := hu
      rw [hu2]
      exact ⟨rfl, rfl⟩

/-- Witness for C7: an offline tick reaching the goal displays the local
username as winner. -/
theorem Game.update_local_win_fallback_witness :
    (offlineGame.update ⟨3, 4⟩ false TransportResult.fault).state.win_handler.winner =
        some "solo" ∧
      (offlineGame.update ⟨3, 4⟩ false
          TransportResult.fault).state.win_handler.has_winner = true :=
  Game.update_local_win_fallback offlineGame ⟨3, 4⟩ false TransportResult.fault rfl rfl rfl
    (by norm_num [Map.is_winner, Vec2.dist2, decide_eq_true_eq, offlineGame])

/-- Counterexample to C7 as stated: an Active networked tick whose
response carries an error field sees no server winner arrive and the
local position on the goal, yet no winner is displayed, because the
raised exception aborts the tick before the local win fallback runs. -/
theorem Game.update_error_tick_skips_local_win :
    Map.is_winner raiseTickGame.end_pos ⟨0, 0⟩ = true ∧
      pyTruthyStr (dataWinner (TransportResult.response (some "oops") none)) = false ∧
      (raiseTickGame.update ⟨0, 0⟩ false
          (TransportResult.response (some "oops") none)).isRaised = true ∧
      (raiseTickGame.update ⟨0, 0⟩ false
          (TransportResult.response (some "oops") none)).state.win_handler.winner =
        none := by
  have hup : raiseTickGame.update ⟨0, 0⟩ false (TransportResult.response (some "oops") none) =
      TickResult.raised { raiseTickGame with pos := ⟨0, 0⟩, server_timer := 0 } true := by
    rw [update_active raiseTickGame ⟨0, 0⟩ false
        (TransportResult.response (some "oops") none) rfl]
    rw [if_pos (show (!raiseTickGame.offline) = true from rfl)]
    rw [update_server_response _ _ _ (by norm_num [raiseTickGame])]
    rw [if_pos (show pyTruthyStr (some "oops") = true from by decide)]
  refine ⟨by norm_num [Map.is_winner, Vec2.dist2, decide_eq_true_eq, raiseTickGame], rfl,
    ?_, ?_⟩
  · rw [hup]
    rfl
  · rw [hup]
    rfl

/-- Claim C8 (confirmed): once a winner is displayed, a tick raises
nothing, sends no report, performs no reconciliation and leaves the
displayed winner and the rest of the synchronization state unchanged;
only the exited flag can change, on the ENTER exit signal. -/
theorem Game.update_idle (g : Game) (newPos : Vec2) (enter : Bool) (tr : TransportResult)
    (h : g.win_handler.has_winner = true) :
    ∃ g2 : Game, g.update newPos enter tr = TickResult.normal g2 false ∧
      g2.win_handler = g.win_handler ∧ g2.other_ships = g.other_ships ∧
      g2.username = g.username ∧ g2.server_timer = g.server_timer ∧
      g2.pos = g.pos := by
  cases enter
  · refine ⟨g, ?_, rfl, rfl, rfl, rfl, rfl⟩
    unfold Game.update
    rw [h]
    rfl
  · refine ⟨{ g with exited := true }, ?_, rfl, rfl, rfl, rfl, rfl⟩
    unfold Game.update
    rw [h]
    rfl

/-- Witness for C8: a tick of a session already displaying a winner. -/
theorem Game.update_idle_witness :
    ∃ g2 : Game, idleGame.update ⟨5, 5⟩ true TransportResult.fault =
        TickResult.normal g2 false ∧
      g2.win_handler = idleGame.win_handler ∧ g2.other_ships = idleGame.other_ships ∧
      g2.username = idleGame.username ∧ g2.server_timer = idleGame.server_timer ∧
      g2.pos = idleGame.pos :=
  Game.update_idle idleGame ⟨5, 5⟩ true TransportResult.fault rfl

end Client

namespace Client

/-- Counterexample to C5 as stated: at a concrete tick, a response
carrying an explicit error field takes the raised-exception path while a
transport fault takes the caught exit path - the two handlings are not
identical. -/
theorem Game.update_server_error_not_same_path :
    (faultTickGame.update_server
        (TransportResult.response (some "bad") (some ⟨[], none⟩))).2 ≠
      (faultTickGame.update_server TransportResult.fault).2 := by
  rw [update_server_response _ _ _ (by norm_num [faultTickGame]),
    if_pos (show pyTruthyStr (some "bad") = true from by decide),
    update_server_fault _ (by norm_num [faultTickGame])]
  simp

end Client
